import Mathlib

/-!
# Verification of the spreads CLI core (`spreads/cli.py`)

A shallow embedding of the CLI front end of the spreads scanning tool:
the dynamic flag synthesizer (`_add_argument_from_option` and its two
callers), the configuration merge step of `main`, the persisted-file
write ordering, and the interactive capture loop (`capture`).

Modelling conventions:
* Python values that can appear as option/config values are the inductive
  `PyValue`; the constructor `PyValue.other` stands for any value of a kind
  the synthesizer has no branch for (e.g. `None` or a dict).
* Python strings are Lean `String`s; where the merge step splits keys on
  dots, keys are modelled as their character lists (`Key := List Char`) so
  that `str.split` can be defined and reasoned about structurally.
* Python floats are modelled as rationals; `time.time()` differences enter
  the capture loop as an abstract sequence `elapsed : Nat -> Rat`.
* Raised exceptions are modelled with `Except` or dedicated error
  inductives; Python float division by zero raises `ZeroDivisionError`,
  modelled as an error result.
-/

set_option autoImplicit false

deriving instance DecidableEq for Except

/-- A Python value as it can appear in an option template or the config. -/
inductive PyValue where
  | str (s : String)
  | bool (b : Bool)
  | float (q : ℚ)
  | int (n : ℤ)
  | list (elems : List String)
  | other
  deriving DecidableEq

/-- Python `str(value)`, as used in the `[default: ...]` help text
(approximate for numeric and list values; no claim depends on those). -/
def showValue : PyValue → String
  | .str s => s
  | .bool b => if b then "True" else "False"
  | .float q => toString q
  | .int n => toString n
  | .list es => toString es
  | .other => "<object>"

/-- Python `str.lower()` (ASCII range, as used on docstrings and keys). -/
def strLower (s : String) : String := String.mk (s.toList.map Char.toLower)

/-- An option declared by a driver or extension: `option.value`,
`option.docstring`, `option.selectable` as read by the synthesizer. -/
structure PluginOption where
  value : PyValue
  docstring : String
  selectable : Bool
  deriving DecidableEq

/-- Exceptions the synthesizer can raise: the explicit
`TypeError("Unsupported option type")` at the end of the `isinstance`
chain, an `IndexError` from `option.value[0]` on an empty sequence, and a
`TypeError` from subscripting a non-sequence. All are caught by the bare
`except:` clauses of the two callers. -/
inductive SynthError where
  | unsupportedOptionType
  | indexError
  | typeError
  deriving DecidableEq

/-- Python `option.value[0]` (line 138): first element of a list, first
character of a string, `IndexError` when empty, `TypeError` otherwise. -/
def pyIndex0 : PyValue → Except SynthError PyValue
  | .str s =>
    match s.toList with
    | [] => .error .indexError
    | c :: _ => .ok (.str (String.mk [c]))
  | .list [] => .error .indexError
  | .list (x :: _) => .ok (.str x)
  | _ => .error .typeError

/-- The `type=` keyword handed to argparse (`unicode`, `float`, `int`,
or the element type of the choices). -/
inductive VKind where
  | text
  | floatKind
  | intKind
  deriving DecidableEq

/-- The argparse action of a synthesized flag: plain value-storing
(the default), `store_true`, or `store_false`. -/
inductive FlagAction where
  | store
  | store_true
  | store_false
  deriving DecidableEq

/-- The flag specification `_add_argument_from_option` registers with one
`parser.add_argument(flag, **kwargs)` call: the flag string, the `dest`,
`help`, `type`, `metavar`, `action` and `choices` keyword arguments, plus
the `default` local variable the function computes (lines 136-138; it is
interpolated into the help text, never passed to argparse). -/
structure FlagSpec where
  flagName : String
  dest : String
  help : String
  valueKind : Option VKind
  metavar : Option String
  action : FlagAction
  choices : Option (List String)
  defaultValue : PyValue
  deriving DecidableEq

/-- `_add_argument_from_option(extname, key, option, parser)`
(lines 134-166), returning the single registered `FlagSpec` or the raised
exception. The branch order mirrors the `isinstance` chain: str, bool,
float, int, then `option.selectable`, then the unsupported-type error. -/
def add_argument_from_option (extname key : String) (o : PluginOption) :
    Except SynthError FlagSpec :=
  match (if o.selectable then pyIndex0 o.value else .ok o.value) with
  | .error e => .error e
  | .ok dflt =>
    let flag := "--" ++ key
    let dest := extname ++ "." ++ key
    let baseHelp := o.docstring ++ " [default: " ++ showValue dflt ++ "]"
    match o.value with
    | .str _ => .ok ⟨flag, dest, baseHelp, some .text, some "<str>", .store, none, dflt⟩
    | .bool b =>
      if b then
        .ok ⟨"--no-" ++ key, dest, "Disable " ++ strLower o.docstring,
             none, none, .store_false, none, dflt⟩
      else
        .ok ⟨flag, dest, o.docstring, none, none, .store_true, none, dflt⟩
    | .float _ => .ok ⟨flag, dest, baseHelp, some .floatKind, some "<float>", .store, none, dflt⟩
    | .int _ => .ok ⟨flag, dest, baseHelp, some .intKind, some "<int>", .store, none, dflt⟩
    | .list cs =>
      if o.selectable then
        .ok ⟨flag, dest, baseHelp, some .text,
             some ("<" ++ String.intercalate "/" cs ++ ">"), .store, some cs, dflt⟩
      else .error .unsupportedOptionType
    | .other => .error .unsupportedOptionType

/-- `_add_device_arguments` (lines 168-176): iterates the driver template
with `except: return`, so the first failing option aborts the whole
remaining template of the driver. The owner name is hardwired to
`device`. -/
def add_device_arguments : List (String × PluginOption) → List FlagSpec
  | [] => []
  | (k, o) :: rest =>
    match add_argument_from_option "device" k o with
    | .ok f => f :: add_device_arguments rest
    | .error _ => []

/-- The inner loop of `_add_plugin_arguments` (lines 184-188) for one
extension: iterates the extension template with `except: continue`, so a
failing option is skipped and the remaining options of the same extension
are still attempted. -/
def add_plugin_arguments_for_ext (extname : String) :
    List (String × PluginOption) → List FlagSpec
  | [] => []
  | (k, o) :: rest =>
    match add_argument_from_option extname k o with
    | .ok f => f :: add_plugin_arguments_for_ext extname rest
    | .error _ => add_plugin_arguments_for_ext extname rest

/-- Argparse semantics for a synthesized flag that was registered without
an explicit `default=` keyword (as all flags of
`add_argument_from_option` are): a `store_true` flag defaults to `False`
and stores `True` when supplied, a `store_false` flag defaults to `True`
and stores `False`, a plain storing flag defaults to `None` and stores
the converted supplied value. `supplied` is `some v` when the flag
appeared on the command line. -/
def parsed_arg_value (act : FlagAction) (supplied : Option PyValue) : Option PyValue :=
  match act with
  | .store_true => some (.bool supplied.isSome)
  | .store_false => some (.bool !supplied.isSome)
  | .store => supplied

/-- Exception raised by `(3600/(time.time() - start_time))` when the
elapsed float is exactly zero (Python float division by zero raises
`ZeroDivisionError`; it does not yield `inf` or `0`). -/
inductive PyDivError where
  | zeroDivision
  deriving DecidableEq

/-- `pages_per_hour = (3600/(time.time() - start_time))*shot_count`
(line 88), with the elapsed time as a rational and the raised
`ZeroDivisionError` made explicit. -/
def pages_per_hour (elapsed : ℚ) (shotCount : ℕ) : Except PyDivError ℚ :=
  if elapsed = 0 then .error .zeroDivision
  else .ok (3600 / elapsed * shotCount)

/-- A destination key of the parse result, modelled as the character list
of the Python string so that splitting on dots is structural. -/
abbrev Key := List Char

/-- The hierarchical configuration (`confit.LazyConfig`): the top-level
assignments `config[argkey] = value` and the nested assignments
`config[section][key] = value` that the merge step of `main` performs. -/
structure Config where
  top : Key → Option PyValue
  sect : Key → Key → Option PyValue

/-- The empty configuration (no value stored anywhere). -/
def empty_config : Config := ⟨fun _ => none, fun _ _ => none⟩

/-- `config[argkey] = value`: overwrite the top-level entry in place. -/
def set_top (cfg : Config) (k : Key) (v : PyValue) : Config :=
  { cfg with top := fun k2 => if k2 = k then some v else cfg.top k2 }

/-- `config[section][key] = value`: overwrite the nested entry in place. -/
def set_sect (cfg : Config) (s k : Key) (v : PyValue) : Config :=
  { cfg with sect := fun s2 k2 => if s2 = s ∧ k2 = k then some v else cfg.sect s2 k2 }

/-- The literal key `func` that line 262 of `main` skips. -/
def func_key : Key := ['f', 'u', 'n', 'c']

/-- The destination key of the global `--verbose` flag. -/
def verbose_key : Key := ['v', 'e', 'r', 'b', 'o', 's', 'e']

/-- Python `argkey.split(".")` on the character list. -/
def py_split_dot : Key → List Key
  | [] => [[]]
  | c :: cs =>
    if c = '.' then [] :: py_split_dot cs
    else
      match py_split_dot cs with
      | [] => [[c]]
      | g :: gs => (c :: g) :: gs

/-- The `ValueError` raised by the tuple unpacking
`section, key = argkey.split(".")` when the key holds more than one
dot. -/
inductive MergeErr where
  | valueError
  deriving DecidableEq

/-- One iteration of the merge loop of `main` (lines 261-268): skip a
`None` value and the key `func`; route a dotted key into its section;
set a bare key at top level. -/
def merge_parsed_arg (cfg : Config) (argkey : Key) (value : Option PyValue) :
    Except MergeErr Config :=
  match value with
  | none => .ok cfg
  | some v =>
    if argkey = func_key then .ok cfg
    else if '.' ∈ argkey then
      match py_split_dot argkey with
      | [s, k] => .ok (set_sect cfg s k v)
      | _ => .error .valueError
    else .ok (set_top cfg argkey v)

/-- The whole merge loop over the items of `args.__dict__`. -/
def merge_parsed_args (cfg : Config) :
    List (Key × Option PyValue) → Except MergeErr Config
  | [] => .ok cfg
  | (k, v) :: rest =>
    match merge_parsed_arg cfg k v with
    | .ok cfg2 => merge_parsed_args cfg2 rest
    | .error e => .error e

/-- The startup sequence of `main` around configuration persistence
(lines 253-268): the configuration `cfg0` as it stands after `read()` and
plugin setup is dumped to the config path only when no file exists there,
and only then are the command-line arguments parsed and merged. The
result pairs the persisted file content with the merged configuration. -/
def main_startup (existing : Option Config) (cfg0 : Config)
    (args : List (Key × Option PyValue)) :
    Option Config × Except MergeErr Config :=
  let persisted :=
    match existing with
    | some old => some old
    | none => some cfg0
  (persisted, merge_parsed_args cfg0 args)

/-- The logging levels of the `loglevel` choice mapping (lines 270-277). -/
inductive LogLevel where
  | notset
  | info
  | debug
  | warning
  | error
  | critical
  deriving DecidableEq

/-- `config["loglevel"].as_choice({...})` (lines 270-277): map the
configured string to a level, or raise `ConfigValueError` (modelled as
`none`) for any other string. -/
def as_choice_loglevel : String → Option LogLevel
  | "none" => some .notset
  | "info" => some .info
  | "debug" => some .debug
  | "warning" => some .warning
  | "error" => some .error
  | "critical" => some .critical
  | _ => none

/-- Lines 270-279 of `main`: the effective log level is computed from the
configured `loglevel` string, then overridden to `debug` when
`args.verbose` is set. Note the second input is read from the raw parsed
argument namespace `args`, not from the merged configuration. -/
def compute_loglevel (argsVerbose : Bool) (loglevelCfg : String) : Option LogLevel :=
  (as_choice_loglevel loglevelCfg).map (fun l => if argsVerbose then .debug else l)

/-- Restatement of the guarantee of the spec as a definition: logger
setup as a function of the merged configuration alone, with the verbose
toggle read back from `config["verbose"]` instead of `args.verbose`. -/
def compute_loglevel_from_config (cfg : Config) (loglevelCfg : String) :
    Option LogLevel :=
  (as_choice_loglevel loglevelCfg).map
    (fun l => if cfg.top verbose_key = some (.bool true) then .debug else l)

/-- A device as the capture subcommand sees it: only its `orientation`
attribute is read (a string or `None`). -/
structure Device where
  orientation : Option String
  deriving DecidableEq

/-- Python truthiness of `x.orientation` as tested by
`any(not x.orientation for x in workflow.devices)` (line 70): `None` and
the empty string are falsy. -/
def orientation_set (d : Device) : Bool :=
  match d.orientation with
  | none => false
  | some s => !s.isEmpty

/-- The `DeviceException`s `capture` can raise (lines 64-73); the
wrong-count message interpolates the actual device count. -/
inductive DeviceException where
  | wrongDeviceCount (found : ℕ)
  | notConfigured
  deriving DecidableEq

/-- The message text of each `DeviceException` of `capture`. -/
def device_exception_message : DeviceException → String
  | .wrongDeviceCount n =>
    "Please connect and turn on two pre-configured devices! (" ++
      toString n ++ " were found)"
  | .notConfigured =>
    "At least one of the devices has not been properly configured, " ++
      "please re-run the program with the " ++ "configure" ++ " option!"

/-- The precondition checks at the head of `capture` (lines 64-73): the
device count must be exactly two, and every device must have a truthy
orientation; the first failing check raises. -/
def capture_precheck (devices : List Device) : Except DeviceException Unit :=
  if devices.length ≠ 2 then .error (.wrongDeviceCount devices.length)
  else if devices.any (fun d => !orientation_set d) then .error .notConfigured
  else .ok ()

/-- The externally observable side effects of `capture`:
`workflow.prepare_capture()`, one `workflow.capture()` per accepted
keypress, and `workflow.finish_capture()`. -/
inductive Ev where
  | prepare
  | shot
  | finish
  deriving DecidableEq

/-- `getch().lower() in capture_keys` (line 84). -/
def is_capture_key (captureKeys : List Char) (k : Char) : Bool :=
  captureKeys.contains k.toLower

/-- Outcome of the `while True` keypress loop (lines 83-93), given a
finite list of pending keypresses: `blocked` when the input list is
exhausted while the loop still waits on `getch()`, `zeroDiv` when the
rate computation raised `ZeroDivisionError` mid-loop (aborting `capture`
with the shot of that iteration already taken), `finished` on the first
keypress outside the capture-key set. Each result carries the final
`shot_count` and the `workflow.capture()` events of the run. -/
inductive LoopOut where
  | blocked (shots : ℕ) (events : List Ev)
  | zeroDiv (shots : ℕ) (events : List Ev)
  | finished (shots : ℕ) (events : List Ev)
  deriving DecidableEq

/-- The keypress loop of `capture` (lines 83-93). `n` is the device
count added to `shot_count` per accepted key (line 87), `elapsed i` the
value of `time.time() - start_time` observed at the i-th iteration
(line 88). -/
def capture_loop (captureKeys : List Char) (n : ℕ) (elapsed : ℕ → ℚ) :
    List Char → ℕ → ℕ → LoopOut
  | [], shots, _ => .blocked shots []
  | k :: ks, shots, i =>
    if is_capture_key captureKeys k then
      match pages_per_hour (elapsed i) (shots + n) with
      | .error _ => .zeroDiv (shots + n) [.shot]
      | .ok _ =>
        match capture_loop captureKeys n elapsed ks (shots + n) (i + 1) with
        | .blocked s es => .blocked s (.shot :: es)
        | .zeroDiv s es => .zeroDiv s (.shot :: es)
        | .finished s es => .finished s (.shot :: es)
    else .finished shots []

/-- How a run of `capture` ended: the loop exited normally and
`finish_capture` ran, or the run is still blocked on input, or a
`ZeroDivisionError` aborted it before `finish_capture`. -/
inductive RunStatus where
  | finishedOk
  | stillWaiting
  | divErrorAbort
  deriving DecidableEq

/-- The observable trace of one `capture(workflow)` invocation that got
past the precondition checks. -/
structure RunTrace where
  events : List Ev
  shots : ℕ
  status : RunStatus
  deriving DecidableEq

/-- The whole `capture(workflow)` function (lines 63-99): precondition
checks, `prepare_capture`, the keypress loop, and the single
`finish_capture` call after a normal loop exit (line 94). A raised
`DeviceException` yields an error carrying no events at all, so no
`prepare_capture` side effect has happened. -/
def capture_run (devices : List Device) (captureKeys : List Char)
    (elapsed : ℕ → ℚ) (keys : List Char) : Except DeviceException RunTrace :=
  match capture_precheck devices with
  | .error e => .error e
  | .ok _ =>
    match capture_loop captureKeys devices.length elapsed keys 0 0 with
    | .finished s es => .ok ⟨Ev.prepare :: (es ++ [Ev.finish]), s, .finishedOk⟩
    | .blocked s es => .ok ⟨Ev.prepare :: es, s, .stillWaiting⟩
    | .zeroDiv s es => .ok ⟨Ev.prepare :: es, s, .divErrorAbort⟩

/-! ## Helper lemmas -/

theorem py_split_dot_no_dot {s : Key} (hs : '.' ∉ s) : py_split_dot s = [s] := by
  induction s with
  | nil => rfl
  | cons c cs ih =>
    have hc : c ≠ '.' := fun h => hs (h ▸ List.mem_cons_self c cs)
    have hcs : '.' ∉ cs := fun h => hs (List.mem_cons_of_mem c h)
    simp [py_split_dot, hc, ih hcs]

theorem py_split_dot_pair {s k : Key} (hs : '.' ∉ s) (hk : '.' ∉ k) :
    py_split_dot (s ++ '.' :: k) = [s, k] := by
  induction s with
  | nil => simp [py_split_dot, py_split_dot_no_dot hk]
  | cons c cs ih =>
    have hc : c ≠ '.' := fun h => hs (h ▸ List.mem_cons_self c cs)
    have hcs : '.' ∉ cs := fun h => hs (List.mem_cons_of_mem c h)
    simp [py_split_dot, hc, ih hcs]

/-- A dotted key `section.key` (one dot, both halves dot-free) is routed
into the nested section, overwriting in place. -/
theorem merge_parsed_arg_dotted (cfg : Config) {s k : Key} (v : PyValue)
    (hs : '.' ∉ s) (hk : '.' ∉ k) :
    merge_parsed_arg cfg (s ++ '.' :: k) (some v) = .ok (set_sect cfg s k v) := by
  have hne : s ++ '.' :: k ≠ func_key := by
    intro h
    have : '.' ∈ func_key := h ▸ (List.mem_append.mpr (Or.inr (List.mem_cons_self _ _)))
    simp [func_key] at this
  have hmem : '.' ∈ s ++ '.' :: k := List.mem_append.mpr (Or.inr (List.mem_cons_self _ _))
  simp [merge_parsed_arg, hne, hmem, py_split_dot_pair hs hk]

/-- A bare key other than `func` is set at the top level, overwriting in
place. -/
theorem merge_parsed_arg_bare (cfg : Config) {bk : Key} (v : PyValue)
    (hd : '.' ∉ bk) (hf : bk ≠ func_key) :
    merge_parsed_arg cfg bk (some v) = .ok (set_top cfg bk v) := by
  simp [merge_parsed_arg, hf, hd]

/-- When input holds a non-capture key and every observed elapsed time is
nonzero, the loop ends at the first non-capture key having taken one shot
per accepted key of the longest capture-key run at the head of the
input. -/
theorem capture_loop_finished (ck : List Char) (n : ℕ) (elapsed : ℕ → ℚ)
    (hel : ∀ i, elapsed i ≠ 0) (keys : List Char) :
    ∀ (shots i : ℕ), (∃ k, k ∈ keys ∧ is_capture_key ck k = false) →
    capture_loop ck n elapsed keys shots i =
      .finished (shots + n * (keys.takeWhile (is_capture_key ck)).length)
                ((keys.takeWhile (is_capture_key ck)).map (fun _ => Ev.shot)) := by
  induction keys with
  | nil => intro shots i h; rcases h with ⟨k, hk, _⟩; simp at hk
  | cons k ks ih =>
    intro shots i h
    by_cases hk : is_capture_key ck k
    · have hrate : pages_per_hour (elapsed i) (shots + n)
          = .ok (3600 / elapsed i * (shots + n)) := by
        simp [pages_per_hour, hel i]
      have hex : ∃ k2, k2 ∈ ks ∧ is_capture_key ck k2 = false := by
        rcases h with ⟨k2, hmem, hfalse⟩
        rcases List.mem_cons.mp hmem with heq | h2
        · subst heq; rw [hk] at hfalse; exact absurd hfalse (by simp)
        · exact ⟨k2, h2, hfalse⟩
      have harith : shots + n + n * (ks.takeWhile (is_capture_key ck)).length
          = shots + n * ((ks.takeWhile (is_capture_key ck)).length + 1) := by ring
      simp [capture_loop, hk, hrate, ih (shots + n) (i + 1) hex,
        List.takeWhile_cons, harith]
    · simp [capture_loop, hk, List.takeWhile_cons,
        Bool.not_eq_true]

/-! ## Claim theorems -/

/-- C1, counterexample: at `elapsedSeconds = 0` the rate computation of
the loop body raises `ZeroDivisionError`; it does not evaluate to `0`. -/
theorem C1_rate_zero_counterexample :
    pages_per_hour 0 2 = .error .zeroDivision ∧ pages_per_hour 0 2 ≠ .ok 0 :=
  ⟨rfl, by decide⟩

/-- C1 (amended): after each triggered capture the rate is recomputed as
`3600 / elapsedSeconds * shotCount` whenever `elapsedSeconds` is nonzero;
at `elapsedSeconds` exactly `0` the division raises `ZeroDivisionError`
(the code contains no zero guard), so freedom from division errors holds
only for nonzero elapsed times. -/
theorem C1_rate_amended (elapsed : ℚ) (n : ℕ) (h : elapsed ≠ 0) :
    pages_per_hour elapsed n = .ok (3600 / elapsed * n) ∧
    pages_per_hour 0 n = .error .zeroDivision := by
  exact ⟨by simp [pages_per_hour, h], rfl⟩

/-- C1 witness: the test vector of the spec, `shotCount = 10` and
`elapsedSeconds = 5`, gives `7200` pages per hour. -/
theorem C1_rate_witness :
    pages_per_hour 5 10 = .ok 7200 ∧
    pages_per_hour 0 10 = .error .zeroDivision := by
  have h := C1_rate_amended 5 10 (by norm_num)
  exact ⟨h.1.trans (by norm_num), h.2⟩

/-- C2, counterexample: for an extension template where the first option
is of an unsupported value type, the option after it still gets a flag
registered (`except: continue` in `_add_plugin_arguments` skips only the
failing option), so synthesis of the remaining options of that owner IS
attempted, contrary to the claim. -/
theorem C2_truncation_counterexample :
    add_argument_from_option "ext" "bad" ⟨.other, "d", false⟩
      = .error .unsupportedOptionType ∧
    (add_plugin_arguments_for_ext "ext"
      [("bad", ⟨.other, "d", false⟩),
       ("good", ⟨.str "x", "doc", false⟩)]).map FlagSpec.dest
      = ["ext.good"] :=
  ⟨rfl, rfl⟩

/-- C2 (amended): an unsupported Option fails with the
`UnsupportedOptionType` error; for the device driver the failure aborts
all remaining options of the template (`except: return`), while for an
extension only the failing option is dropped and every remaining option
of the same extension is still attempted (`except: continue`). -/
theorem C2_truncation_amended (tmpl : List (String × PluginOption)) :
    (∀ x pre post, tmpl = pre ++ x :: post →
       (∀ p ∈ pre, (add_argument_from_option "device" p.1 p.2).toOption.isSome = true) →
       (add_argument_from_option "device" x.1 x.2).toOption.isSome = false →
       add_device_arguments tmpl =
         pre.filterMap (fun p => (add_argument_from_option "device" p.1 p.2).toOption)) ∧
    (∀ e, add_plugin_arguments_for_ext e tmpl =
       tmpl.filterMap (fun p => (add_argument_from_option e p.1 p.2).toOption)) := by
  constructor
  · intro x pre post htmpl hpre hx
    subst htmpl
    induction pre with
    | nil =>
      obtain ⟨k, o⟩ := x
      cases h : add_argument_from_option "device" k o with
      | ok f => simp [h, Except.toOption] at hx
      | error err => simp [add_device_arguments, h]
    | cons p pre2 ih =>
      obtain ⟨k, o⟩ := p
      have hp := hpre (k, o) (List.mem_cons_self _ _)
      cases h : add_argument_from_option "device" k o with
      | error err => simp [h, Except.toOption] at hp
      | ok f =>
        have ih2 := ih (fun q hq => hpre q (List.mem_cons_of_mem _ hq))
        simp [add_device_arguments, h, ih2, List.filterMap_cons, Except.toOption]
  · intro e
    induction tmpl with
    | nil => rfl
    | cons p rest ih =>
      obtain ⟨k, o⟩ := p
      cases h : add_argument_from_option e k o with
      | ok f => simp [add_plugin_arguments_for_ext, h, ih, List.filterMap_cons, Except.toOption]
      | error err => simp [add_plugin_arguments_for_ext, h, ih, List.filterMap_cons, Except.toOption]

/-- C2 witness: on the same two-option template, the driver path
registers nothing at all while the extension path registers exactly the
flag of the second (supported) option. -/
theorem C2_truncation_witness :
    add_device_arguments
      [("bad", ⟨.other, "d", false⟩), ("good", ⟨.str "x", "doc", false⟩)] = [] ∧
    add_plugin_arguments_for_ext "ext"
      [("bad", ⟨.other, "d", false⟩), ("good", ⟨.str "x", "doc", false⟩)]
      = [⟨"--good", "ext.good", "doc [default: x]", some .text, some "<str>",
          .store, none, .str "x"⟩] := by
  have h := C2_truncation_amended
    [("bad", ⟨.other, "d", false⟩), ("good", ⟨.str "x", "doc", false⟩)]
  constructor
  · exact (h.1 ("bad", ⟨.other, "d", false⟩) [] [("good", ⟨.str "x", "doc", false⟩)]
      rfl (by simp) (by decide)).trans rfl
  · exact (h.2 "ext").trans (by decide)

/-- C3: one merge-loop iteration skips exactly the entries whose value is
`None` and the literal dispatch key `func` (the argparse handler-slot
convention; the subcommand name key is merged and later read from the
config by the dispatcher); every other dotted key `section.key` is
written into the nested section and every other bare key at top level,
overwriting in place whatever was stored there (the config `cfg` is
arbitrary), so command-line values take precedence. -/
theorem C3_merge_step (cfg : Config) (v : PyValue) :
    (∀ argkey, merge_parsed_arg cfg argkey none = .ok cfg) ∧
    (merge_parsed_arg cfg func_key (some v) = .ok cfg) ∧
    (∀ s k, '.' ∉ s → '.' ∉ k →
       ∃ cfg2, merge_parsed_arg cfg (s ++ '.' :: k) (some v) = .ok cfg2 ∧
         cfg2.sect s k = some v ∧ cfg2.top = cfg.top) ∧
    (∀ bk, '.' ∉ bk → bk ≠ func_key →
       ∃ cfg2, merge_parsed_arg cfg bk (some v) = .ok cfg2 ∧
         cfg2.top bk = some v ∧ cfg2.sect = cfg.sect) := by
  refine ⟨fun _ => rfl, rfl, ?_, ?_⟩
  · intro s k hs hk
    exact ⟨_, merge_parsed_arg_dotted cfg v hs hk, by simp [set_sect], rfl⟩
  · intro bk hd hf
    exact ⟨_, merge_parsed_arg_bare cfg v hd hf, by simp [set_top], rfl⟩

/-- C3 witness: the dotted override `device.orientation = "landscape"`
replaces a persisted `"portrait"` in the nested section. -/
theorem C3_merge_step_witness :
    ∃ cfg2,
      merge_parsed_arg
        (set_sect empty_config ['d', 'e', 'v', 'i', 'c', 'e']
          ['o', 'r', 'i', 'e', 'n', 't', 'a', 't', 'i', 'o', 'n'] (.str "portrait"))
        (['d', 'e', 'v', 'i', 'c', 'e'] ++ '.' ::
          ['o', 'r', 'i', 'e', 'n', 't', 'a', 't', 'i', 'o', 'n'])
        (some (.str "landscape")) = .ok cfg2 ∧
      cfg2.sect ['d', 'e', 'v', 'i', 'c', 'e']
        ['o', 'r', 'i', 'e', 'n', 't', 'a', 't', 'i', 'o', 'n']
        = some (.str "landscape") ∧
      cfg2.top = (set_sect empty_config ['d', 'e', 'v', 'i', 'c', 'e']
        ['o', 'r', 'i', 'e', 'n', 't', 'a', 't', 'i', 'o', 'n'] (.str "portrait")).top :=
  (C3_merge_step
    (set_sect empty_config ['d', 'e', 'v', 'i', 'c', 'e']
      ['o', 'r', 'i', 'e', 'n', 't', 'a', 't', 'i', 'o', 'n'] (.str "portrait"))
    (.str "landscape")).2.2.1
    ['d', 'e', 'v', 'i', 'c', 'e'] ['o', 'r', 'i', 'e', 'n', 't', 'a', 't', 'i', 'o', 'n']
    (by decide) (by decide)

/-- C4, counterexample: with one and the same merged configuration
(`loglevel = "info"`), the logger setup computes different levels
depending on the raw `args.verbose` value (line 278 reads
`args.verbose`), so the logger setup is not a function of the unified
ConfigNamespace alone — it reads a value back from the raw
parsed-argument namespace, contrary to the claim. -/
theorem C4_raw_args_counterexample :
    compute_loglevel true "info" ≠ compute_loglevel false "info" ∧
    compute_loglevel true "info" = some .debug ∧
    compute_loglevel false "info" = some .info :=
  ⟨by decide, rfl, rfl⟩

/-- C4 (amended): the logger setup does read `args.verbose` back from the
raw parsed-argument namespace; however, because the merge step always
writes the (never-`None`) verbose value into the top level of the config
first, that read is observationally equivalent to reading
`config["verbose"]` from the merged configuration, which otherwise is the
single object consumed downstream. -/
theorem C4_raw_args_amended (cfg0 : Config) (v : Bool) (ll : String) :
    ∃ cfg, merge_parsed_arg cfg0 verbose_key (some (.bool v)) = .ok cfg ∧
      cfg.top verbose_key = some (.bool v) ∧
      compute_loglevel v ll = compute_loglevel_from_config cfg ll := by
  refine ⟨set_top cfg0 verbose_key (.bool v),
    merge_parsed_arg_bare cfg0 _ (by decide) (by decide), by simp [set_top], ?_⟩
  cases v <;> simp [compute_loglevel, compute_loglevel_from_config, set_top]

/-- C5: a non-selectable boolean Option with default `v` synthesizes
exactly one FlagSpec (the function registers a single
`parser.add_argument` call, never a set/unset pair) whose polarity is the
inverse of `v`: default `true` gives a disabling `store_false` flag named
with a `no-` marker and help reframed as `Disable ...`; default `false`
gives a plain enabling `store_true` flag. -/
theorem C5_bool_flag_polarity (e k d : String) (v : Bool) :
    add_argument_from_option e k ⟨.bool v, d, false⟩ =
      .ok ⟨if v then "--no-" ++ k else "--" ++ k, e ++ "." ++ k,
           if v then "Disable " ++ strLower d else d, none, none,
           if v then .store_false else .store_true, none, .bool v⟩ := by
  cases v <;> rfl

/-- C6: a selectable Option with non-empty choices `c :: rest`
synthesizes a FlagSpec whose accepted value set is exactly the declared
choices and whose default value is the first choice. -/
theorem C6_selectable_choices (e k d c : String) (rest : List String) :
    ∃ spec, add_argument_from_option e k ⟨.list (c :: rest), d, true⟩ = .ok spec ∧
      spec.choices = some (c :: rest) ∧ spec.defaultValue = .str c :=
  ⟨_, rfl, rfl, rfl⟩

/-- C7: the capture precondition check succeeds exactly when there are
two devices, all with a truthy orientation; any other device count fails
with a `DeviceException` carrying the actual count, two devices with an
orientation gap fail with the configuration `DeviceException`; and any
precondition failure aborts `capture` with no trace at all, hence before
any `prepare_capture` side effect. -/
theorem C7_precondition (devices : List Device) :
    (capture_precheck devices = .ok () ↔
      devices.length = 2 ∧ ∀ d ∈ devices, orientation_set d = true) ∧
    (devices.length ≠ 2 →
      capture_precheck devices = .error (.wrongDeviceCount devices.length)) ∧
    (devices.length = 2 → (∃ d ∈ devices, orientation_set d = false) →
      capture_precheck devices = .error .notConfigured) ∧
    (∀ e captureKeys elapsed keys, capture_precheck devices = .error e →
      capture_run devices captureKeys elapsed keys = .error e) := by
  refine ⟨?_, ?_, ?_, ?_⟩
  · constructor
    · intro h
      by_cases h2 : devices.length = 2
      · refine ⟨h2, fun d hd => ?_⟩
        by_contra hds
        have hany : devices.any (fun d => !orientation_set d) = true :=
          List.any_eq_true.mpr ⟨d, hd, by simpa using hds⟩
        simp [capture_precheck, h2, hany] at h
      · simp [capture_precheck, h2] at h
    · rintro ⟨h2, hall⟩
      have hany : devices.any (fun d => !orientation_set d) = false := by
        rw [Bool.eq_false_iff]
        intro hc
        rcases List.any_eq_true.mp hc with ⟨d, hd, hds⟩
        rw [hall d hd] at hds
        simp at hds
      simp [capture_precheck, h2, hany]
  · intro h; simp [capture_precheck, h]
  · rintro h2 ⟨d, hd, hds⟩
    have hany : devices.any (fun d => !orientation_set d) = true :=
      List.any_eq_true.mpr ⟨d, hd, by simp [hds]⟩
    simp [capture_precheck, h2, hany]
  · intro e captureKeys elapsed keys h
    simp [capture_run, h]

/-- C7 witness: two configured devices pass; a single device fails with
the count in the message; two devices with one unset orientation fail
with the configuration error, and that error propagates out of the whole
run untouched. -/
theorem C7_precondition_witness :
    capture_precheck [⟨some "left"⟩, ⟨some "right"⟩] = .ok () ∧
    capture_precheck [⟨some "left"⟩] = .error (.wrongDeviceCount 1) ∧
    capture_precheck [⟨some "left"⟩, ⟨none⟩] = .error .notConfigured ∧
    capture_run [⟨some "left"⟩, ⟨none⟩] ['b'] (fun _ => 1) ['q']
      = .error .notConfigured := by
  refine ⟨(C7_precondition [⟨some "left"⟩, ⟨some "right"⟩]).1.mpr (by decide),
    (C7_precondition [⟨some "left"⟩]).2.1 (by decide),
    (C7_precondition [⟨some "left"⟩, ⟨none⟩]).2.2.1 rfl ⟨⟨none⟩, by decide, rfl⟩,
    (C7_precondition [⟨some "left"⟩, ⟨none⟩]).2.2.2 .notConfigured ['b'] (fun _ => 1) ['q'] ?_⟩
  exact (C7_precondition [⟨some "left"⟩, ⟨none⟩]).2.2.1 rfl ⟨⟨none⟩, by decide, rfl⟩

/-- C8: in a run whose preconditions pass and whose observed elapsed
times are nonzero (so the rate computation never raises), the loop
lower-cases each key (inside `is_capture_key`), takes one shot per
leading capture key, terminates at the first key outside the capture-key
set, and `finish_capture` appears exactly once in the resulting event
trace. -/
theorem C8_loop_finish_once (devices : List Device) (captureKeys : List Char)
    (elapsed : ℕ → ℚ) (keys : List Char)
    (hpre : capture_precheck devices = .ok ())
    (hel : ∀ i, elapsed i ≠ 0)
    (hstop : ∃ k, k ∈ keys ∧ is_capture_key captureKeys k = false) :
    capture_run devices captureKeys elapsed keys =
      .ok ⟨Ev.prepare ::
             (((keys.takeWhile (is_capture_key captureKeys)).map (fun _ => Ev.shot))
               ++ [Ev.finish]),
           devices.length * (keys.takeWhile (is_capture_key captureKeys)).length,
           .finishedOk⟩ ∧
    (Ev.prepare ::
        (((keys.takeWhile (is_capture_key captureKeys)).map (fun _ => Ev.shot))
          ++ [Ev.finish])).count Ev.finish = 1 := by
  constructor
  · have h := capture_loop_finished captureKeys devices.length elapsed hel keys 0 0 hstop
    simp [capture_run, hpre, h]
  · have h0 : Ev.finish ∉ ((keys.takeWhile (is_capture_key captureKeys)).map
        (fun _ => Ev.shot)) := by
      intro hmem
      rcases List.mem_map.mp hmem with ⟨a, _, heq⟩
      exact absurd heq (by decide)
    simp [List.count_cons, List.count_append, List.count_eq_zero.mpr h0,
      List.count_replicate]

/-- C8 witness: with capture keys `b`, the key sequence `B`, `b`, `q`
yields two shots (upper-case `B` is lower-cased and accepted), stops at
`q`, and the trace holds exactly one `finish_capture`. -/
theorem C8_loop_finish_once_witness :
    capture_run [⟨some "left"⟩, ⟨some "right"⟩] ['b'] (fun _ => 1) ['B', 'b', 'q'] =
      .ok ⟨[Ev.prepare, Ev.shot, Ev.shot, Ev.finish], 4, .finishedOk⟩ ∧
    ([Ev.prepare, Ev.shot, Ev.shot, Ev.finish] : List Ev).count Ev.finish = 1 := by
  have h := C8_loop_finish_once [⟨some "left"⟩, ⟨some "right"⟩] ['b'] (fun _ => 1)
    ['B', 'b', 'q'] rfl (fun _ => one_ne_zero) ⟨'q', by decide, by decide⟩
  exact ⟨h.1.trans (by decide), by decide⟩

/-- C9: the persisted configuration file content never depends on the
parsed command-line arguments (the dump of `main` runs strictly before
`parse_args` and the merge step); a pre-existing file is left as it was,
and when no file exists the pre-merge configuration `cfg0` is written. -/
theorem C9_persist_before_merge (existing : Option Config) (cfg0 : Config)
    (args args2 : List (Key × Option PyValue)) :
    ((main_startup existing cfg0 args).1 = (main_startup existing cfg0 args2).1) ∧
    (∀ old, existing = some old → (main_startup existing cfg0 args).1 = some old) ∧
    (existing = none → (main_startup existing cfg0 args).1 = some cfg0) := by
  refine ⟨?_, ?_, ?_⟩
  · cases existing <;> rfl
  · rintro old rfl; rfl
  · rintro rfl; rfl

/-- C9 witness: with no pre-existing file, a run whose command line
supplies `verbose = true` persists exactly the pre-merge default config,
with no trace of the command-line value; with a pre-existing file nothing
is written. -/
theorem C9_persist_before_merge_witness :
    (main_startup none empty_config
        [(verbose_key, some (.bool true))]).1 = some empty_config ∧
    (main_startup (some (set_top empty_config verbose_key (.bool false)))
        empty_config [(verbose_key, some (.bool true))]).1
      = some (set_top empty_config verbose_key (.bool false)) :=
  ⟨(C9_persist_before_merge none empty_config
      [(verbose_key, some (.bool true))] []).2.2 rfl,
   (C9_persist_before_merge (some (set_top empty_config verbose_key (.bool false)))
      empty_config [(verbose_key, some (.bool true))] []).2.1
      (set_top empty_config verbose_key (.bool false)) rfl⟩

/-- C10 (implicit): a synthesized boolean flag is registered as
`store_true`/`store_false` with no explicit default, so its parse result
is always non-`None` (the implied polarity default when not supplied);
consequently the merge step always writes that value into the nested
section of the config, overwriting whatever was file-persisted there —
the config `cfg` and prior contents are arbitrary. -/
theorem C10_bool_flag_overwrites (v : Bool) (e k d : String) (s kk : Key)
    (hs : '.' ∉ s) (hk : '.' ∉ kk) (cfg : Config) (supplied : Option PyValue) :
    ∃ spec, add_argument_from_option e k ⟨.bool v, d, false⟩ = .ok spec ∧
      spec.action = (if v then FlagAction.store_false else FlagAction.store_true) ∧
      ∃ w, parsed_arg_value spec.action supplied = some w ∧
        ∃ cfg2, merge_parsed_arg cfg (s ++ '.' :: kk) (some w) = .ok cfg2 ∧
          cfg2.sect s kk = some w := by
  cases v with
  | true =>
    exact ⟨_, rfl, rfl, .bool !supplied.isSome, rfl,
      _, merge_parsed_arg_dotted cfg _ hs hk, by simp [set_sect]⟩
  | false =>
    exact ⟨_, rfl, rfl, .bool supplied.isSome, rfl,
      _, merge_parsed_arg_dotted cfg _ hs hk, by simp [set_sect]⟩

/-- C10 witness: a boolean option with default `false` (a `store_true`
flag) that is not supplied on the command line still parses to
`some false` and overwrites a file-persisted `true` in
`device.flatbed`. -/
theorem C10_bool_flag_overwrites_witness :
    ∃ spec, add_argument_from_option "device" "flatbed"
        ⟨.bool false, "doc", false⟩ = .ok spec ∧
      spec.action = (if false then FlagAction.store_false else FlagAction.store_true) ∧
      ∃ w, parsed_arg_value spec.action none = some w ∧
        ∃ cfg2, merge_parsed_arg
            (set_sect empty_config ['d', 'e', 'v', 'i', 'c', 'e']
              ['f', 'l', 'a', 't', 'b', 'e', 'd'] (.bool true))
            (['d', 'e', 'v', 'i', 'c', 'e'] ++ '.' :: ['f', 'l', 'a', 't', 'b', 'e', 'd'])
            (some w) = .ok cfg2 ∧
          cfg2.sect ['d', 'e', 'v', 'i', 'c', 'e'] ['f', 'l', 'a', 't', 'b', 'e', 'd']
            = some w :=
  C10_bool_flag_overwrites false "device" "flatbed" "doc"
    ['d', 'e', 'v', 'i', 'c', 'e'] ['f', 'l', 'a', 't', 'b', 'e', 'd']
    (by decide) (by decide)
    (set_sect empty_config ['d', 'e', 'v', 'i', 'c', 'e']
      ['f', 'l', 'a', 't', 'b', 'e', 'd'] (.bool true)) none
